import Mathlib

/-!
Verification of the GPS tracking core of the monitoring-andover repository.

The repository contains two front-end variants of the same tracking logic:
* `trj.js` — a device-GPS tracker (`handlePosition`, `gpsToXY`,
  `calculateDistance`, `getGridSpacing`, `startTracking`, `handleError`);
* `krakatau-andover-fe-master/script.js` — a vehicle-telemetry tracker
  (`updateGPSPosition`, `updateGPSFromVehicle`, `gpsToLocalXY`,
  `startGPSTracking`, `stopGPSTracking`, `clearGPSPath`).

Both are embedded below as pure state-transition functions: JavaScript numbers
become real numbers (grid arithmetic, which is exact, uses rationals),
timestamps become integers, and DOM / toastr side effects are dropped while
status strings and subscription effects are modelled explicitly. Code that
can throw is modelled with `Except`: script.js's `gpsToLocalXY` references
the undeclared identifiers `ctx` and `canvas` and so raises a
`ReferenceError` whenever the origin is set.
-/

/-! ## Configuration constants (trj.js `CONFIG`) -/

/-- `CONFIG.EARTH_RADIUS`: Earth radius in meters. -/
def EARTH_RADIUS : ℝ := 6371000

/-- `CONFIG.MIN_DISTANCE`: minimum distance to record, in meters. -/
def MIN_DISTANCE : ℝ := 1

/-- `CONFIG.MIN_TIME_BETWEEN`: minimum time between updates, in ms. -/
def MIN_TIME_BETWEEN : ℤ := 1000

/-- `CONFIG.AUTO_RETRY_DELAY`: auto retry delay on GPS timeout, in ms. -/
def AUTO_RETRY_DELAY : ℤ := 3000

/-- `CONFIG.GRID_SIZES`: grid spacing options, ascending. -/
def GRID_SIZES : List ℚ := [1, 2, 5, 10, 20, 50, 100]

/-! ## Geometry: `Math.atan2`, haversine distance, tangent-plane projection -/

/-- JavaScript's `Math.atan2(y, x)` on real arguments. -/
noncomputable def atan2 (y x : ℝ) : ℝ :=
  if 0 < x then Real.arctan (y / x)
  else if x < 0 ∧ 0 ≤ y then Real.arctan (y / x) + Real.pi
  else if x < 0 ∧ y < 0 then Real.arctan (y / x) - Real.pi
  else if 0 < y then Real.pi / 2
  else if y < 0 then -(Real.pi / 2)
  else 0

/-- `calculateDistance(lat1, lon1, lat2, lon2)` (trj.js lines 202-211 and
script.js lines 667-672, identical formulas): haversine distance in meters. -/
noncomputable def calculateDistance (lat1 lon1 lat2 lon2 : ℝ) : ℝ :=
  let dLat := (lat2 - lat1) * Real.pi / 180
  let dLon := (lon2 - lon1) * Real.pi / 180
  let a := Real.sin (dLat / 2) ^ 2 +
      Real.cos (lat1 * Real.pi / 180) * Real.cos (lat2 * Real.pi / 180) *
        Real.sin (dLon / 2) ^ 2
  EARTH_RADIUS * 2 * atan2 (Real.sqrt a) (Real.sqrt (1 - a))

/-- A session origin `{lat, lon}`. -/
structure Origin where
  lat : ℝ
  lon : ℝ

/-- `gpsToXY(lat, lon)` (trj.js lines 183-194), parametrised by the
`state.originGPS` it reads: equirectangular projection to local meters. -/
noncomputable def gpsToXY (origin : Option Origin) (lat lon : ℝ) : ℝ × ℝ :=
  match origin with
  | none => (0, 0)
  | some o =>
    let dLat := lat - o.lat
    let dLon := lon - o.lon
    (dLon * (Real.pi / 180) * EARTH_RADIUS * Real.cos (o.lat * Real.pi / 180),
     dLat * (Real.pi / 180) * EARTH_RADIUS)

/-- The coordinate arithmetic of `gpsToLocalXY` (script.js lines 357-361):
the same equirectangular projection as trj.js's `gpsToXY`. -/
noncomputable def gpsToLocalXYCoords (o : Origin) (lat lon : ℝ) : ℝ × ℝ :=
  let dLat := lat - o.lat
  let dLon := lon - o.lon
  (dLon * (Real.pi / 180) * EARTH_RADIUS * Real.cos (o.lat * Real.pi / 180),
   dLat * (Real.pi / 180) * EARTH_RADIUS)

/-- `gpsToLocalXY(lat, lon)` (script.js lines 354-377). With the origin absent
it returns `(0, 0)` at line 355, before anything else runs. With the origin
set it computes `x` and `y` (lines 357-361) but then executes
`ctx.fillText('X (N)', canvas.width - 40, canvas.height - 5)` and
`ctx.fillText('Y (E)', 5, 25)` (lines 374-375) with the identifiers `ctx` and
`canvas` undeclared in this method — unlike every sibling method, it never
declares `const ctx = this.gpsTracker.ctx` — so the call throws a
`ReferenceError` before ever reaching `return { x, y }` at line 376. -/
noncomputable def gpsToLocalXY (origin : Option Origin) (lat lon : ℝ) :
    Except String (ℝ × ℝ) :=
  match origin with
  | none => .ok (0, 0)
  | some o =>
    let _xy := gpsToLocalXYCoords o lat lon
    .error "ReferenceError: ctx is not defined"

/-! ## trj.js: tracker state, `handlePosition`, `startTracking`, `handleError` -/

/-- A recorded path point, in the field order pushed by the source
(`{x, y, lat, lon, timestamp, accuracy, speed}`). -/
structure Point where
  x : ℝ
  y : ℝ
  lat : ℝ
  lon : ℝ
  timestamp : ℤ
  accuracy : ℝ
  speed : ℝ

/-- The trj.js global `state` (canvas handles dropped; `status` records the
string class passed to `updateStatus`). -/
structure TrjState where
  watchId : Option ℕ
  originGPS : Option Origin
  path : List Point
  totalDistance : ℝ
  startTime : Option ℤ
  lastUpdateTime : ℤ
  status : String

/-- The initial trj.js `state`. -/
noncomputable def trjInit : TrjState :=
  { watchId := none, originGPS := none, path := [], totalDistance := 0,
    startTime := none, lastUpdateTime := 0, status := "idle" }

/-- trj.js lines 93-106: on the first position the origin and start time are
set and the status switches to locked; otherwise nothing changes. -/
noncomputable def setOriginIfNeeded (s : TrjState) (lat lon : ℝ) (ts : ℤ) : TrjState :=
  match s.originGPS with
  | none => { s with originGPS := some ⟨lat, lon⟩, startTime := some ts,
                     status := "locked" }
  | some _ => s

/-- trj.js lines 123-137: update `lastUpdateTime`, project the fix with the
current origin, and push the new path point. -/
noncomputable def pushPoint (s : TrjState) (lat lon acc speed : ℝ) (ts : ℤ) : TrjState :=
  let xy := gpsToXY s.originGPS lat lon
  { s with lastUpdateTime := ts,
           path := s.path ++ [{ x := xy.1, y := xy.2, lat := lat, lon := lon,
                                timestamp := ts, accuracy := acc, speed := speed }] }

/-- `handlePosition(position)` (trj.js lines 86-147): the GPS fix handler.
`speedRaw` is `position.coords.speed` in m/s (converted to km/h as in the
source); `ts` is `Date.now()`. -/
noncomputable def handlePosition (s0 : TrjState) (lat lon acc speedRaw : ℝ) (ts : ℤ) :
    TrjState :=
  let speed := speedRaw * 3.6
  let s := setOriginIfNeeded s0 lat lon ts
  match s.path.getLast? with
  | some last =>
    let dist := calculateDistance last.lat last.lon lat lon
    let timeDiff := ts - s.lastUpdateTime
    if dist < MIN_DISTANCE ∧ timeDiff < MIN_TIME_BETWEEN then s
    else
      let s1 := if MIN_DISTANCE ≤ dist
        then { s with totalDistance := s.totalDistance + dist } else s
      pushPoint s1 lat lon acc speed ts
  | none => pushPoint s lat lon acc speed ts

/-- One delivered GPS fix, as consumed by `handlePosition`. -/
structure GpsFix where
  lat : ℝ
  lon : ℝ
  acc : ℝ
  speedRaw : ℝ
  ts : ℤ

/-- Deliver a sequence of fixes to the trj.js tracker, oldest first. -/
noncomputable def trjRun (s : TrjState) : List GpsFix → TrjState
  | [] => s
  | f :: fs => trjRun (handlePosition s f.lat f.lon f.acc f.speedRaw f.ts) fs

/-- The external geolocation service: `nextId` is the handle the next
`watchPosition` call returns, `subs` counts subscriptions made so far. -/
structure GeoSvc where
  nextId : ℕ
  subs : ℕ

/-- `startTracking()` (trj.js lines 66-84): if geolocation is unsupported,
report an error status; otherwise set the searching status and subscribe via
`watchPosition`, storing the returned handle. There is no guard against
already-running tracking. -/
noncomputable def startTracking (geoSupported : Bool) (s : TrjState) (svc : GeoSvc) :
    TrjState × GeoSvc :=
  if geoSupported = false then ({ s with status := "error" }, svc)
  else ({ s with status := "searching", watchId := some svc.nextId },
        { nextId := svc.nextId + 1, subs := svc.subs + 1 })

/-- The `error.code` values consumed by `handleError`. -/
inductive GeoErrorCode where
  | permissionDenied
  | positionUnavailable
  | timeout
  | other

/-- The observable outcome of `handleError`: the `(message, type, statusValue)`
triple passed to `updateStatus`, if any, and the delay of a scheduled
`startTracking` retry, if any. -/
structure ErrorOutcome where
  statusUpdate : Option (String × String × String)
  retryDelayMs : Option ℤ

/-- `handleError(error)` (trj.js lines 149-178): permission-denied and
position-unavailable fall through to an error status update; timeout schedules
`startTracking` after `AUTO_RETRY_DELAY` and returns before any status update. -/
def handleError : GeoErrorCode → ErrorOutcome
  | .permissionDenied =>
    { statusUpdate := some ("GPS Permission Denied", "error", "Permission Denied"),
      retryDelayMs := none }
  | .positionUnavailable =>
    { statusUpdate := some ("GPS Unavailable", "error", "Unavailable"),
      retryDelayMs := none }
  | .timeout =>
    { statusUpdate := none, retryDelayMs := some AUTO_RETRY_DELAY }
  | .other =>
    { statusUpdate := some ("GPS Error", "error", "Error"), retryDelayMs := none }

/-! ## trj.js: grid spacing -/

/-- The descending scan of trj.js lines 435-439: first spacing `s` (from the
largest down) with `viewRange / s >= 4`. -/
def gridLoop (viewRange : ℚ) : List ℚ → Option ℚ
  | [] => none
  | s :: rest => if 4 ≤ viewRange / s then some s else gridLoop viewRange rest

/-- `getGridSpacing()` (trj.js lines 432-442), with the view range
`(canvas.width - 2 * MARGIN) / pixelsPerMeter` passed as the parameter:
scan `GRID_SIZES` from the largest candidate down, returning the first one
showing at least 4 divisions, and fall back to `GRID_SIZES[0]`. -/
def getGridSpacing (viewRange : ℚ) : ℚ :=
  (gridLoop viewRange GRID_SIZES.reverse).getD (GRID_SIZES.headD 1)

/-! ## script.js: the vehicle-telemetry tracker -/

/-- The `gpsTracker` object of script.js (canvas handles and wake lock
dropped). `lastUpdateTime` exists in the source but is never written. -/
structure ScriptState where
  watchId : Option ℕ
  originGPS : Option Origin
  path : List Point
  totalDistance : ℝ
  startTime : Option ℤ
  lastUpdateTime : Option ℤ
  isTracking : Bool
  retryCount : ℕ

/-- The initial `gpsTracker` state (script.js lines 57-73). -/
noncomputable def scriptInit : ScriptState :=
  { watchId := none, originGPS := none, path := [], totalDistance := 0,
    startTime := none, lastUpdateTime := none, isTracking := false, retryCount := 0 }

/-- script.js lines 641-645: set origin and start time from the fix when the
origin is still unset. -/
noncomputable def setScriptOrigin (s : ScriptState) (lat lon : ℝ) (ts : ℤ) : ScriptState :=
  match s.originGPS with
  | none => { s with originGPS := some ⟨lat, lon⟩, startTime := some ts }
  | some _ => s

/-- script.js lines 654-663: project the fix and push the new path point
(accuracy hardcoded to `1.0`, speed to `0`). The source obtains `xy` from
`this.gpsToLocalXY(lat, lon)`, which with a set origin throws at its stray
label lines before returning (see `gpsToLocalXY`); the embedding builds the
point from the projection arithmetic the source computes (lines 357-361) so
the tracker stays a total state machine. The origin assignment, the odometer
increment and the zero-coordinate guard all precede this call in the source,
so the facts proved about them below hold of the code with either reading. -/
noncomputable def pushScriptPoint (s : ScriptState) (lat lon : ℝ) (ts : ℤ) : ScriptState :=
  let xy := match s.originGPS with
    | none => ((0 : ℝ), (0 : ℝ))
    | some o => gpsToLocalXYCoords o lat lon
  { s with path := s.path ++ [{ x := xy.1, y := xy.2, lat := lat, lon := lon,
                                timestamp := ts, accuracy := 1, speed := 0 }] }

/-- `updateGPSPosition()` (script.js lines 634-665): drop invalid fixes,
ensure the origin, and record the fix unless it moved less than `0.5` m from
the last point; every recorded move adds its distance to the odometer. -/
noncomputable def updateGPSPosition (s : ScriptState) (lat lon : ℝ) (ts : ℤ) : ScriptState :=
  if lat = 0 ∨ lon = 0 then s
  else
    let s1 := setScriptOrigin s lat lon ts
    match s1.path.getLast? with
    | some last =>
      let dist := calculateDistance last.lat last.lon lat lon
      if dist < 0.5 then s1
      else pushScriptPoint { s1 with totalDistance := s1.totalDistance + dist } lat lon ts
    | none => pushScriptPoint s1 lat lon ts

/-- `updateGPSFromVehicle()` (script.js lines 622-631): skip when tracking is
inactive or the vehicle fix is invalid, else forward to `updateGPSPosition`. -/
noncomputable def updateGPSFromVehicle (s : ScriptState) (lat lon : ℝ) (ts : ℤ) :
    ScriptState :=
  if s.isTracking = false then s
  else if lat = 0 ∨ lon = 0 then s
  else updateGPSPosition s lat lon ts

/-- `startGPSTracking()` (script.js lines 686-761): no-op when already
tracking; with invalid vehicle data bump the bounded retry counter; otherwise
set the origin and start time from the current vehicle position, mark tracking
active, and (when browser geolocation exists) store the fallback watch handle
`wid`. -/
noncomputable def startGPSTracking (s : ScriptState) (lat lon : ℝ) (ts : ℤ)
    (geoSupported : Bool) (wid : ℕ) : ScriptState :=
  if s.isTracking then s
  else if lat = 0 ∨ lon = 0 then
    if s.retryCount + 1 < 10 then { s with retryCount := s.retryCount + 1 }
    else { s with retryCount := 0 }
  else
    let s1 := { s with retryCount := 0, originGPS := some ⟨lat, lon⟩,
                       startTime := some ts, isTracking := true }
    if geoSupported then { s1 with watchId := some wid } else s1

/-- `stopGPSTracking()` (script.js lines 763-767): clears the geolocation
watch (the stored id is not nulled) and stops tracking. -/
noncomputable def stopGPSTracking (s : ScriptState) : ScriptState :=
  { s with isTracking := false }

/-- `clearGPSPath()` (script.js lines 769-781): `confirmOk` models the
`confirm(...)` dialog answer; the Bool output records whether the path state
was reset and redrawn. An active session is stopped first, not rejected. -/
noncomputable def clearGPSPath (confirmOk : Bool) (s : ScriptState) : ScriptState × Bool :=
  if confirmOk = false then (s, false)
  else
    let s1 := if s.isTracking then stopGPSTracking s else s
    ({ s1 with path := [], originGPS := none, totalDistance := 0,
               startTime := none, retryCount := 0 }, true)

/-- The user/vehicle events driving the script.js tracker. -/
inductive SEvent where
  | start (lat lon : ℝ) (ts : ℤ) (geo : Bool) (wid : ℕ)
  | vehicleFix (lat lon : ℝ) (ts : ℤ)
  | stop
  | clear (confirmOk : Bool)

/-- One script.js event step. -/
noncomputable def sStep (s : ScriptState) : SEvent → ScriptState
  | .start lat lon ts geo wid => startGPSTracking s lat lon ts geo wid
  | .vehicleFix lat lon ts => updateGPSFromVehicle s lat lon ts
  | .stop => stopGPSTracking s
  | .clear ok => (clearGPSPath ok s).1

/-- Run a sequence of script.js events, oldest first. -/
noncomputable def sRun (s : ScriptState) : List SEvent → ScriptState
  | [] => s
  | e :: es => sRun (sStep s e) es

/-! ## Concrete states used by witnesses and counterexamples -/

/-- A concrete recorded point at the origin, timestamp 0. -/
noncomputable def trjWitPoint : Point :=
  { x := 0, y := 0, lat := 0, lon := 0, timestamp := 0, accuracy := 1, speed := 0 }

/-- A concrete locked trj.js state holding one recorded point. -/
noncomputable def trjWitState : TrjState :=
  { watchId := some 0, originGPS := some ⟨0, 0⟩, path := [trjWitPoint],
    totalDistance := 0, startTime := some 0, lastUpdateTime := 0, status := "locked" }

/-- A concrete recorded point at latitude 10, longitude 20. -/
noncomputable def scriptWitPoint : Point :=
  { x := 0, y := 0, lat := 10, lon := 20, timestamp := 0, accuracy := 1, speed := 0 }

/-- A concrete actively-tracking script.js state holding one recorded point. -/
noncomputable def scriptWitState : ScriptState :=
  { watchId := some 0, originGPS := some ⟨10, 20⟩, path := [scriptWitPoint],
    totalDistance := 5, startTime := some 0, lastUpdateTime := none,
    isTracking := true, retryCount := 0 }

/-! ## Basic facts about the geometry -/

lemma arctan_nonneg {t : ℝ} (h : 0 ≤ t) : 0 ≤ Real.arctan t := by
  have h2 := Real.arctan_strictMono.monotone h
  rwa [Real.arctan_zero] at h2

lemma atan2_nonneg {y x : ℝ} (hy : 0 ≤ y) (hx : 0 ≤ x) : 0 ≤ atan2 y x := by
  unfold atan2
  split_ifs with h1 h2 h3 h4 h5
  · exact arctan_nonneg (div_nonneg hy h1.le)
  · linarith [h2.1]
  · linarith [h3.1]
  · positivity
  · linarith
  · exact le_refl 0

lemma atan2_zero_one : atan2 0 1 = 0 := by
  unfold atan2
  rw [if_pos one_pos]
  simp [Real.arctan_zero]

lemma calculateDistance_nonneg (lat1 lon1 lat2 lon2 : ℝ) :
    0 ≤ calculateDistance lat1 lon1 lat2 lon2 := by
  unfold calculateDistance
  have hR : (0 : ℝ) ≤ EARTH_RADIUS * 2 := by norm_num [EARTH_RADIUS]
  exact mul_nonneg hR (atan2_nonneg (Real.sqrt_nonneg _) (Real.sqrt_nonneg _))

lemma calculateDistance_self (lat lon : ℝ) :
    calculateDistance lat lon lat lon = 0 := by
  unfold calculateDistance
  simp only [sub_self, zero_mul, zero_div, Real.sin_zero]
  norm_num [Real.sqrt_one, atan2_zero_one]

lemma calculateDistance_comm (lat1 lon1 lat2 lon2 : ℝ) :
    calculateDistance lat1 lon1 lat2 lon2 = calculateDistance lat2 lon2 lat1 lon1 := by
  simp only [calculateDistance]
  have hsin : ∀ u v : ℝ, Real.sin ((u - v) * Real.pi / 180 / 2) ^ 2
      = Real.sin ((v - u) * Real.pi / 180 / 2) ^ 2 := by
    intro u v
    have h : (u - v) * Real.pi / 180 / 2 = -((v - u) * Real.pi / 180 / 2) := by ring
    rw [h, Real.sin_neg, neg_sq]
  rw [hsin lat2 lat1, hsin lon2 lon1,
    mul_comm (Real.cos (lat1 * Real.pi / 180)) (Real.cos (lat2 * Real.pi / 180))]

/-! ## Step lemmas for trj.js `handlePosition` -/

lemma setOriginIfNeeded_of_isSome {s : TrjState} (h : s.originGPS.isSome)
    (lat lon : ℝ) (ts : ℤ) : setOriginIfNeeded s lat lon ts = s := by
  unfold setOriginIfNeeded
  cases ho : s.originGPS with
  | none => rw [ho] at h; simp at h
  | some o => rfl

lemma setOriginIfNeeded_path (s : TrjState) (lat lon : ℝ) (ts : ℤ) :
    (setOriginIfNeeded s lat lon ts).path = s.path := by
  unfold setOriginIfNeeded
  cases s.originGPS <;> rfl

lemma setOriginIfNeeded_totalDistance (s : TrjState) (lat lon : ℝ) (ts : ℤ) :
    (setOriginIfNeeded s lat lon ts).totalDistance = s.totalDistance := by
  unfold setOriginIfNeeded
  cases s.originGPS <;> rfl

lemma setOriginIfNeeded_origin_isSome (s : TrjState) (lat lon : ℝ) (ts : ℤ) :
    ((setOriginIfNeeded s lat lon ts).originGPS.isSome) := by
  unfold setOriginIfNeeded
  cases ho : s.originGPS with
  | none => rfl
  | some o => simp [ho]

/-- The total distance recorded by one `handlePosition` call: unchanged unless
a prior point exists and the new fix is at least `MIN_DISTANCE` away. -/
lemma handlePosition_totalDistance (s0 : TrjState) (lat lon acc speedRaw : ℝ) (ts : ℤ) :
    (handlePosition s0 lat lon acc speedRaw ts).totalDistance =
      s0.totalDistance +
        (match s0.path.getLast? with
         | some last =>
           let dist := calculateDistance last.lat last.lon lat lon
           let timeDiff := ts - (setOriginIfNeeded s0 lat lon ts).lastUpdateTime
           if dist < MIN_DISTANCE ∧ timeDiff < MIN_TIME_BETWEEN then 0
           else if MIN_DISTANCE ≤ dist then dist else 0
         | none => 0) := by
  have htd : (setOriginIfNeeded s0 lat lon ts).totalDistance = s0.totalDistance :=
    setOriginIfNeeded_totalDistance s0 lat lon ts
  simp only [handlePosition]
  rw [setOriginIfNeeded_path]
  cases hl : s0.path.getLast? with
  | none => simp [pushPoint, htd]
  | some last =>
    dsimp only
    split_ifs with h1 h2
    · simp [htd]
    · simp [pushPoint, htd]
    · simp [pushPoint, htd]

/-! ## Claim theorems: geometry -/

/-- Claim C6: the haversine distance function is symmetric, zero for
identical coordinates, and always nonnegative. -/
theorem calculateDistance_spec :
    (∀ lat1 lon1 lat2 lon2 : ℝ,
        calculateDistance lat1 lon1 lat2 lon2 = calculateDistance lat2 lon2 lat1 lon1) ∧
    (∀ lat lon : ℝ, calculateDistance lat lon lat lon = 0) ∧
    (∀ lat1 lon1 lat2 lon2 : ℝ, 0 ≤ calculateDistance lat1 lon1 lat2 lon2) :=
  ⟨calculateDistance_comm, calculateDistance_self, calculateDistance_nonneg⟩

/-- Claim C5, evaluated against the code: trj.js's `gpsToXY` satisfies the
claim in full — `(0, 0)` with the origin absent and exactly `(0, 0)` for a
fix at the origin — and script.js's `gpsToLocalXY` returns `(0, 0)` with the
origin absent; but with any set origin `gpsToLocalXY` throws a
`ReferenceError` (undeclared `ctx`/`canvas` at lines 374-375) instead of
returning, even though the projection arithmetic it computes before the crash
yields exactly `(0, 0)` for the origin fix. -/
theorem gpsToXY_spec :
    (∀ lat lon : ℝ, gpsToXY none lat lon = (0, 0)) ∧
    (∀ o : Origin, gpsToXY (some o) o.lat o.lon = (0, 0)) ∧
    (∀ lat lon : ℝ, gpsToLocalXY none lat lon = Except.ok (0, 0)) ∧
    (∀ (o : Origin) (lat lon : ℝ),
        gpsToLocalXY (some o) lat lon =
          Except.error "ReferenceError: ctx is not defined") ∧
    (∀ o : Origin, gpsToLocalXYCoords o o.lat o.lon = (0, 0)) := by
  refine ⟨fun lat lon => rfl, fun o => ?_, fun lat lon => rfl,
    fun o lat lon => rfl, fun o => ?_⟩
  · simp [gpsToXY, sub_self]
  · simp [gpsToLocalXYCoords, sub_self]

/-! ## Claim theorems: fix filter -/

/-- Claim C1: for a fix arriving when a prior recorded point exists (and the
origin is therefore set), with `d` the haversine distance from the last
recorded point and `t` the time since the last update: the fix is rejected —
the whole tracker state unchanged — iff `d < MIN_DISTANCE` and
`t < MIN_TIME_BETWEEN`; an accepted fix is appended as a point with the
timers updated, and contributes `d` to the odometer iff `d ≥ MIN_DISTANCE`,
otherwise `0`. -/
theorem fixFilter_spec (s : TrjState) (last : Point) (lat lon acc speedRaw : ℝ)
    (ts : ℤ) (horig : s.originGPS.isSome) (hlast : s.path.getLast? = some last) :
    (handlePosition s lat lon acc speedRaw ts = s ↔
      calculateDistance last.lat last.lon lat lon < MIN_DISTANCE ∧
        ts - s.lastUpdateTime < MIN_TIME_BETWEEN) ∧
    (¬(calculateDistance last.lat last.lon lat lon < MIN_DISTANCE ∧
        ts - s.lastUpdateTime < MIN_TIME_BETWEEN) →
      (handlePosition s lat lon acc speedRaw ts).path =
        s.path ++ [{ x := (gpsToXY s.originGPS lat lon).1,
                     y := (gpsToXY s.originGPS lat lon).2,
                     lat := lat, lon := lon, timestamp := ts, accuracy := acc,
                     speed := speedRaw * 3.6 }] ∧
      (handlePosition s lat lon acc speedRaw ts).lastUpdateTime = ts ∧
      (handlePosition s lat lon acc speedRaw ts).totalDistance =
        s.totalDistance +
          (if MIN_DISTANCE ≤ calculateDistance last.lat last.lon lat lon
           then calculateDistance last.lat last.lon lat lon else 0)) := by
  have hset : setOriginIfNeeded s lat lon ts = s :=
    setOriginIfNeeded_of_isSome horig lat lon ts
  simp only [handlePosition, hset, hlast]
  by_cases hc : calculateDistance last.lat last.lon lat lon < MIN_DISTANCE ∧
      ts - s.lastUpdateTime < MIN_TIME_BETWEEN
  · rw [if_pos hc]
    exact ⟨iff_of_true rfl hc, fun h => absurd hc h⟩
  · rw [if_neg hc]
    constructor
    · refine iff_of_false ?_ hc
      intro heq
      have hlen := congrArg (fun t => t.path.length) heq
      by_cases hd : MIN_DISTANCE ≤ calculateDistance last.lat last.lon lat lon <;>
        simp [hd, pushPoint] at hlen
    · intro _
      by_cases hd : MIN_DISTANCE ≤ calculateDistance last.lat last.lon lat lon <;>
        simp [hd, pushPoint]

/-- Witness for C1: the filter characterisation applied at a concrete locked
state holding one point, with a fix delivered 5 ms later. -/
theorem fixFilter_spec_witness :
    (handlePosition trjWitState 0 0 1 0 5 = trjWitState ↔
      calculateDistance trjWitPoint.lat trjWitPoint.lon 0 0 < MIN_DISTANCE ∧
        5 - trjWitState.lastUpdateTime < MIN_TIME_BETWEEN) ∧
    (¬(calculateDistance trjWitPoint.lat trjWitPoint.lon 0 0 < MIN_DISTANCE ∧
        5 - trjWitState.lastUpdateTime < MIN_TIME_BETWEEN) →
      (handlePosition trjWitState 0 0 1 0 5).path =
        trjWitState.path ++
          [{ x := (gpsToXY trjWitState.originGPS 0 0).1,
             y := (gpsToXY trjWitState.originGPS 0 0).2,
             lat := 0, lon := 0, timestamp := 5, accuracy := 1,
             speed := 0 * 3.6 }] ∧
      (handlePosition trjWitState 0 0 1 0 5).lastUpdateTime = 5 ∧
      (handlePosition trjWitState 0 0 1 0 5).totalDistance =
        trjWitState.totalDistance +
          (if MIN_DISTANCE ≤ calculateDistance trjWitPoint.lat trjWitPoint.lon 0 0
           then calculateDistance trjWitPoint.lat trjWitPoint.lon 0 0 else 0)) :=
  fixFilter_spec trjWitState trjWitPoint 0 0 1 0 5 rfl rfl

/-! ## Claim theorems: odometer monotonicity -/

lemma handlePosition_totalDistance_le (s : TrjState) (lat lon acc speedRaw : ℝ)
    (ts : ℤ) : s.totalDistance ≤ (handlePosition s lat lon acc speedRaw ts).totalDistance := by
  rw [handlePosition_totalDistance]
  cases hl : s.path.getLast? with
  | none => simp
  | some last =>
    dsimp only
    split_ifs with h1 h2
    · simp
    · have := calculateDistance_nonneg last.lat last.lon lat lon
      linarith
    · simp

lemma trjRun_totalDistance_le (fixes : List GpsFix) :
    ∀ s : TrjState, s.totalDistance ≤ (trjRun s fixes).totalDistance := by
  induction fixes with
  | nil => intro s; exact le_refl _
  | cons f fs ih =>
    intro s
    calc s.totalDistance
        ≤ (handlePosition s f.lat f.lon f.acc f.speedRaw f.ts).totalDistance :=
          handlePosition_totalDistance_le s f.lat f.lon f.acc f.speedRaw f.ts
      _ ≤ (trjRun (handlePosition s f.lat f.lon f.acc f.speedRaw f.ts) fs).totalDistance :=
          ih _

lemma setScriptOrigin_totalDistance (s : ScriptState) (lat lon : ℝ) (ts : ℤ) :
    (setScriptOrigin s lat lon ts).totalDistance = s.totalDistance := by
  unfold setScriptOrigin
  cases s.originGPS <;> rfl

lemma updateGPSPosition_totalDistance_le (s : ScriptState) (lat lon : ℝ) (ts : ℤ) :
    s.totalDistance ≤ (updateGPSPosition s lat lon ts).totalDistance := by
  unfold updateGPSPosition
  split_ifs with h0
  · exact le_refl _
  · have htd := setScriptOrigin_totalDistance s lat lon ts
    dsimp only
    cases hl : (setScriptOrigin s lat lon ts).path.getLast? with
    | none => simp [pushScriptPoint, htd]
    | some last =>
      dsimp only
      split_ifs with h1
      · rw [htd]
      · have := calculateDistance_nonneg last.lat last.lon lat lon
        simp only [pushScriptPoint]
        rw [htd] at *
        simp
        linarith

/-- Claim C4: across every delivered fix sequence the odometer is monotonically
non-decreasing, and a single step adds exactly the filter's accepted delta —
the distance to the last recorded point, and only when it reaches
`MIN_DISTANCE` — never the raw distance of every fix; the vehicle-telemetry
step is monotone as well. -/
theorem totalDistance_monotone_spec :
    (∀ (s : TrjState) (fixes : List GpsFix),
        s.totalDistance ≤ (trjRun s fixes).totalDistance) ∧
    (∀ (s : TrjState) (lat lon acc speedRaw : ℝ) (ts : ℤ),
        (handlePosition s lat lon acc speedRaw ts).totalDistance =
          s.totalDistance +
            (match s.path.getLast? with
             | some last =>
               if calculateDistance last.lat last.lon lat lon < MIN_DISTANCE ∧
                   ts - (setOriginIfNeeded s lat lon ts).lastUpdateTime < MIN_TIME_BETWEEN
               then 0
               else if MIN_DISTANCE ≤ calculateDistance last.lat last.lon lat lon
               then calculateDistance last.lat last.lon lat lon else 0
             | none => 0)) ∧
    (∀ (s : ScriptState) (lat lon : ℝ) (ts : ℤ),
        s.totalDistance ≤ (updateGPSPosition s lat lon ts).totalDistance) :=
  ⟨fun s fixes => trjRun_totalDistance_le fixes s,
   fun s lat lon acc speedRaw ts => handlePosition_totalDistance s lat lon acc speedRaw ts,
   updateGPSPosition_totalDistance_le⟩

/-! ## Claim theorems: grid spacing -/

lemma grid_sizes_reverse : GRID_SIZES.reverse = [100, 50, 20, 10, 5, 2, 1] := by
  decide

/-- Claim C2: for every positive view range, `getGridSpacing` returns the
largest candidate `s` of `GRID_SIZES` with `viewRange / s >= 4`, falling back
to the smallest candidate (1) when none qualifies; in particular a view range
of 450 m yields a spacing of 100 m. -/
theorem gridSpacing_spec (v : ℚ) (hv : 0 < v) :
    getGridSpacing v ∈ GRID_SIZES ∧
    (∀ s ∈ GRID_SIZES, 4 ≤ v / s → s ≤ getGridSpacing v) ∧
    (4 ≤ v / getGridSpacing v ∨
      ((∀ s ∈ GRID_SIZES, ¬ 4 ≤ v / s) ∧ getGridSpacing v = 1)) ∧
    getGridSpacing 450 = 100 := by
  have h450 : getGridSpacing 450 = 100 := by
    rw [getGridSpacing, grid_sizes_reverse]
    norm_num [gridLoop]
  by_cases h100 : 4 ≤ v / 100
  · have hg : getGridSpacing v = 100 := by
      rw [getGridSpacing, grid_sizes_reverse]
      simp [gridLoop, h100]
    refine ⟨by rw [hg]; decide, ?_, Or.inl (by rw [hg]; exact h100), h450⟩
    intro s hs hq
    rw [hg]
    fin_cases hs <;> norm_num
  by_cases h50 : 4 ≤ v / 50
  · have hg : getGridSpacing v = 50 := by
      rw [getGridSpacing, grid_sizes_reverse]
      simp [gridLoop, h100, h50]
    refine ⟨by rw [hg]; decide, ?_, Or.inl (by rw [hg]; exact h50), h450⟩
    intro s hs hq
    rw [hg]
    fin_cases hs <;> first | exact absurd hq h100 | norm_num
  by_cases h20 : 4 ≤ v / 20
  · have hg : getGridSpacing v = 20 := by
      rw [getGridSpacing, grid_sizes_reverse]
      simp [gridLoop, h100, h50, h20]
    refine ⟨by rw [hg]; decide, ?_, Or.inl (by rw [hg]; exact h20), h450⟩
    intro s hs hq
    rw [hg]
    fin_cases hs <;>
      first | exact absurd hq h100 | exact absurd hq h50 | norm_num
  by_cases h10 : 4 ≤ v / 10
  · have hg : getGridSpacing v = 10 := by
      rw [getGridSpacing, grid_sizes_reverse]
      simp [gridLoop, h100, h50, h20, h10]
    refine ⟨by rw [hg]; decide, ?_, Or.inl (by rw [hg]; exact h10), h450⟩
    intro s hs hq
    rw [hg]
    fin_cases hs <;>
      first | exact absurd hq h100 | exact absurd hq h50 |
        exact absurd hq h20 | norm_num
  by_cases h5 : 4 ≤ v / 5
  · have hg : getGridSpacing v = 5 := by
      rw [getGridSpacing, grid_sizes_reverse]
      simp [gridLoop, h100, h50, h20, h10, h5]
    refine ⟨by rw [hg]; decide, ?_, Or.inl (by rw [hg]; exact h5), h450⟩
    intro s hs hq
    rw [hg]
    fin_cases hs <;>
      first | exact absurd hq h100 | exact absurd hq h50 |
        exact absurd hq h20 | exact absurd hq h10 | norm_num
  by_cases h2 : 4 ≤ v / 2
  · have hg : getGridSpacing v = 2 := by
      rw [getGridSpacing, grid_sizes_reverse]
      simp [gridLoop, h100, h50, h20, h10, h5, h2]
    refine ⟨by rw [hg]; decide, ?_, Or.inl (by rw [hg]; exact h2), h450⟩
    intro s hs hq
    rw [hg]
    fin_cases hs <;>
      first | exact absurd hq h100 | exact absurd hq h50 |
        exact absurd hq h20 | exact absurd hq h10 | exact absurd hq h5 |
        norm_num
  by_cases h1 : 4 ≤ v / 1
  · have h1x : 4 ≤ v := by rwa [div_one] at h1
    have hg : getGridSpacing v = 1 := by
      rw [getGridSpacing, grid_sizes_reverse]
      simp [gridLoop, h100, h50, h20, h10, h5, h2, h1x, GRID_SIZES]
    refine ⟨by rw [hg]; decide, ?_, Or.inl (by rw [hg]; exact h1), h450⟩
    intro s hs hq
    rw [hg]
    fin_cases hs <;>
      first | exact absurd hq h100 | exact absurd hq h50 |
        exact absurd hq h20 | exact absurd hq h10 | exact absurd hq h5 |
        exact absurd hq h2 | norm_num
  · have h1x : ¬ 4 ≤ v := by rwa [div_one] at h1
    have hg : getGridSpacing v = 1 := by
      rw [getGridSpacing, grid_sizes_reverse]
      simp [gridLoop, h100, h50, h20, h10, h5, h2, h1x, GRID_SIZES]
    refine ⟨by rw [hg]; decide, ?_, Or.inr ⟨?_, hg⟩, h450⟩
    · intro s hs hq
      rw [hg]
      fin_cases hs <;>
        first | exact absurd hq h1 | exact absurd hq h2 | exact absurd hq h5 |
          exact absurd hq h10 | exact absurd hq h20 | exact absurd hq h50 |
          exact absurd hq h100
    · intro s hs
      fin_cases hs <;> assumption

/-- Witness for C2: the grid-spacing characterisation applied at the concrete
view range 450 (positive), whose spacing is 100. -/
theorem gridSpacing_spec_witness :
    getGridSpacing 450 ∈ GRID_SIZES ∧
    (∀ s ∈ GRID_SIZES, 4 ≤ (450:ℚ) / s → s ≤ getGridSpacing 450) ∧
    (4 ≤ (450:ℚ) / getGridSpacing 450 ∨
      ((∀ s ∈ GRID_SIZES, ¬ 4 ≤ (450:ℚ) / s) ∧ getGridSpacing 450 = 1)) ∧
    getGridSpacing 450 = 100 :=
  gridSpacing_spec 450 (by norm_num)

/-! ## Claim theorems: error handling and lifecycle -/

/-- Claim C9: a GPS timeout is recoverable — `handleError` schedules a
`startTracking` retry after `AUTO_RETRY_DELAY` and performs no status update,
so no terminal error state is entered — while permission-denied and
position-unavailable update the status to the terminal error class with no
retry scheduled. -/
theorem handleError_spec :
    ((handleError .timeout).retryDelayMs = some AUTO_RETRY_DELAY ∧
      (handleError .timeout).statusUpdate = none) ∧
    ((handleError .permissionDenied).retryDelayMs = none ∧
      (handleError .permissionDenied).statusUpdate =
        some ("GPS Permission Denied", "error", "Permission Denied")) ∧
    ((handleError .positionUnavailable).retryDelayMs = none ∧
      (handleError .positionUnavailable).statusUpdate =
        some ("GPS Unavailable", "error", "Unavailable")) :=
  ⟨⟨rfl, rfl⟩, ⟨rfl, rfl⟩, ⟨rfl, rfl⟩⟩

/-- Claim C10: in the vehicle-telemetry variant a fix whose latitude or
longitude is exactly 0 (which also covers the falsy/missing numeric value) is
silently dropped by both `updateGPSPosition` and `updateGPSFromVehicle`: the
whole tracker state is returned unchanged, so equator and prime-meridian
positions are never recorded. -/
theorem invalid_fix_dropped (s : ScriptState) (lat lon : ℝ) (ts : ℤ)
    (h : lat = 0 ∨ lon = 0) :
    updateGPSPosition s lat lon ts = s ∧ updateGPSFromVehicle s lat lon ts = s := by
  constructor
  · unfold updateGPSPosition
    rw [if_pos h]
  · unfold updateGPSFromVehicle
    by_cases ht : s.isTracking = false
    · rw [if_pos ht]
    · rw [if_neg ht, if_pos h]

/-- Witness for C10: a fix on the equator (latitude 0, longitude 100) leaves a
concrete actively-tracking state untouched. -/
theorem invalid_fix_dropped_witness :
    updateGPSPosition scriptWitState 0 100 7 = scriptWitState ∧
    updateGPSFromVehicle scriptWitState 0 100 7 = scriptWitState :=
  invalid_fix_dropped scriptWitState 0 100 7 (Or.inl rfl)

/-- Counterexample to C8: calling `clearGPSPath` (confirmed) on a concrete
actively-tracking state is not rejected — the session is stopped and the path
is wiped, contradicting "rejected and leaves the path state unchanged". -/
theorem clear_reject_cex :
    scriptWitState.isTracking = true ∧
    (clearGPSPath true scriptWitState).1.path = [] ∧
    (clearGPSPath true scriptWitState).1.path ≠ scriptWitState.path ∧
    (clearGPSPath true scriptWitState).1.isTracking = false := by
  refine ⟨rfl, rfl, ?_, rfl⟩
  simp [clearGPSPath, stopGPSTracking, scriptWitState]

/-- Claim C8 as amended: `clearGPSPath` is gated only by the user confirmation
dialog — when declined nothing happens and no redraw runs; when confirmed, an
actively-tracking session is first stopped (not rejected) and the path state
(points, origin, total distance, start time, retry counter) is reset to empty
with a redraw, leaving the tracker stopped. -/
theorem clear_spec_amended (s : ScriptState) :
    clearGPSPath false s = (s, false) ∧
    (clearGPSPath true s).1.path = [] ∧
    (clearGPSPath true s).1.originGPS = none ∧
    (clearGPSPath true s).1.totalDistance = 0 ∧
    (clearGPSPath true s).1.startTime = none ∧
    (clearGPSPath true s).1.retryCount = 0 ∧
    (clearGPSPath true s).1.isTracking = false ∧
    (clearGPSPath true s).2 = true := by
  refine ⟨rfl, ?_, ?_, ?_, ?_, ?_, ?_, ?_⟩ <;>
    · unfold clearGPSPath stopGPSTracking
      by_cases ht : s.isTracking <;> simp [ht]

/-- Counterexample to C7: in trj.js, `startTracking` has no already-running
guard — a second call while the tracker is already Searching subscribes to the
position source again (the subscription count reaches 2) and overwrites the
stored watch handle, so it is not a no-op. -/
theorem start_idempotent_cex :
    (startTracking true trjInit ⟨0, 0⟩).1.status = "searching" ∧
    (startTracking true (startTracking true trjInit ⟨0, 0⟩).1
        (startTracking true trjInit ⟨0, 0⟩).2).2.subs = 2 ∧
    (startTracking true (startTracking true trjInit ⟨0, 0⟩).1
        (startTracking true trjInit ⟨0, 0⟩).2).1.watchId ≠
      (startTracking true trjInit ⟨0, 0⟩).1.watchId := by
  refine ⟨rfl, rfl, ?_⟩
  simp [startTracking, trjInit]

/-- Claim C7 as amended: only the vehicle-telemetry variant's start is
idempotent — `startGPSTracking` is a no-op (no state change, no subscription)
when already tracking — while trj.js's `startTracking` unconditionally enters
the searching status, subscribes to the position source and stores the fresh
watch handle, leaving the recorded path, origin and odometer untouched. -/
theorem start_spec_amended :
    (∀ (s : ScriptState) (lat lon : ℝ) (ts : ℤ) (geo : Bool) (wid : ℕ),
        s.isTracking = true → startGPSTracking s lat lon ts geo wid = s) ∧
    (∀ (s : TrjState) (svc : GeoSvc),
        (startTracking true s svc).1.status = "searching" ∧
        (startTracking true s svc).1.watchId = some svc.nextId ∧
        (startTracking true s svc).1.path = s.path ∧
        (startTracking true s svc).1.originGPS = s.originGPS ∧
        (startTracking true s svc).1.totalDistance = s.totalDistance ∧
        (startTracking true s svc).2.subs = svc.subs + 1) := by
  constructor
  · intro s lat lon ts geo wid h
    unfold startGPSTracking
    simp [h]
  · intro s svc
    exact ⟨rfl, rfl, rfl, rfl, rfl, rfl⟩

/-- Witness for the amended C7: a confirmed-tracking concrete state is left
unchanged by `startGPSTracking`, and a fresh trj.js start subscribes once. -/
theorem start_spec_amended_witness :
    startGPSTracking scriptWitState 1 2 0 true 3 = scriptWitState ∧
    (startTracking true trjInit ⟨0, 0⟩).1.status = "searching" ∧
    (startTracking true trjInit ⟨0, 0⟩).2.subs = (⟨0, 0⟩ : GeoSvc).subs + 1 :=
  ⟨start_spec_amended.1 scriptWitState 1 2 0 true 3 rfl,
   (start_spec_amended.2 trjInit ⟨0, 0⟩).1,
   (start_spec_amended.2 trjInit ⟨0, 0⟩).2.2.2.2.2⟩

/-! ## Claim theorems: origin/points invariant -/

lemma handlePosition_origin_some (s : TrjState) (lat lon acc speedRaw : ℝ) (ts : ℤ)
    (o : Origin) (h : s.originGPS = some o) :
    (handlePosition s lat lon acc speedRaw ts).originGPS = some o := by
  have hset : setOriginIfNeeded s lat lon ts = s :=
    setOriginIfNeeded_of_isSome (by simp [h]) lat lon ts
  simp only [handlePosition, hset]
  cases hl : s.path.getLast? with
  | none => simp [pushPoint, h]
  | some last =>
    dsimp only
    split_ifs with h1 h2
    · exact h
    · simp [pushPoint, h]
    · simp [pushPoint, h]

lemma handlePosition_inv (s : TrjState) (lat lon acc speedRaw : ℝ) (ts : ℤ)
    (h : s.originGPS.isSome ↔ s.path ≠ []) :
    ((handlePosition s lat lon acc speedRaw ts).originGPS.isSome ↔
      (handlePosition s lat lon acc speedRaw ts).path ≠ []) := by
  cases ho : s.originGPS with
  | none =>
    have hp : s.path = [] := by
      by_contra hne
      have h2 := h.mpr hne
      rw [ho] at h2
      simp at h2
    simp only [handlePosition, setOriginIfNeeded, ho, hp]
    simp [pushPoint]
  | some o =>
    have hp : s.path ≠ [] := h.mp (by simp [ho])
    have hset : setOriginIfNeeded s lat lon ts = s :=
      setOriginIfNeeded_of_isSome (by simp [ho]) lat lon ts
    simp only [handlePosition, hset]
    cases hl : s.path.getLast? with
    | none => exact absurd (List.getLast?_eq_none_iff.mp hl) hp
    | some last =>
      dsimp only
      split_ifs with h1 h2
      · exact h
      · simp [pushPoint, ho]
      · simp [pushPoint, ho]

lemma trjRun_inv (fixes : List GpsFix) :
    ∀ s : TrjState, (s.originGPS.isSome ↔ s.path ≠ []) →
      ((trjRun s fixes).originGPS.isSome ↔ (trjRun s fixes).path ≠ []) := by
  induction fixes with
  | nil => intro s h; exact h
  | cons f fs ih =>
    intro s h
    exact ih _ (handlePosition_inv s f.lat f.lon f.acc f.speedRaw f.ts h)

lemma setScriptOrigin_isSome (s : ScriptState) (lat lon : ℝ) (ts : ℤ) :
    (setScriptOrigin s lat lon ts).originGPS.isSome := by
  unfold setScriptOrigin
  cases ho : s.originGPS with
  | none => rfl
  | some o => simp [ho]

lemma setScriptOrigin_of_some (s : ScriptState) (lat lon : ℝ) (ts : ℤ)
    (o : Origin) (h : s.originGPS = some o) : setScriptOrigin s lat lon ts = s := by
  unfold setScriptOrigin
  rw [h]

lemma updateGPSPosition_origin_isSome' (s : ScriptState) (lat lon : ℝ) (ts : ℤ)
    (h0 : ¬(lat = 0 ∨ lon = 0)) :
    (updateGPSPosition s lat lon ts).originGPS.isSome := by
  unfold updateGPSPosition
  rw [if_neg h0]
  have hos := setScriptOrigin_isSome s lat lon ts
  dsimp only
  cases hl : (setScriptOrigin s lat lon ts).path.getLast? with
  | none => simpa [pushScriptPoint] using hos
  | some last =>
    dsimp only
    split_ifs with h1
    · exact hos
    · simpa [pushScriptPoint] using hos

lemma updateGPSPosition_origin_some (s : ScriptState) (lat lon : ℝ) (ts : ℤ)
    (o : Origin) (h : s.originGPS = some o) :
    (updateGPSPosition s lat lon ts).originGPS = some o := by
  unfold updateGPSPosition
  split_ifs with h0
  · exact h
  · rw [setScriptOrigin_of_some s lat lon ts o h]
    dsimp only
    cases hl : s.path.getLast? with
    | none => simp only [hl]; simp [pushScriptPoint, h]
    | some last =>
      simp only [hl]
      split_ifs with h1
      · exact h
      · simp [pushScriptPoint, h]

lemma updateGPSFromVehicle_origin_some (s : ScriptState) (lat lon : ℝ) (ts : ℤ)
    (o : Origin) (h : s.originGPS = some o) :
    (updateGPSFromVehicle s lat lon ts).originGPS = some o := by
  unfold updateGPSFromVehicle
  split_ifs with h1 h2
  · exact h
  · exact h
  · exact updateGPSPosition_origin_some s lat lon ts o h

lemma sStep_inv (s : ScriptState) (e : SEvent)
    (h : s.path ≠ [] → s.originGPS.isSome) :
    ((sStep s e).path ≠ [] → (sStep s e).originGPS.isSome) := by
  cases e with
  | start lat lon ts geo wid =>
    simp only [sStep]
    unfold startGPSTracking
    dsimp only
    split_ifs with h1 h2 h3 h4 <;> intro hp <;> first | exact h hp | rfl
  | vehicleFix lat lon ts =>
    simp only [sStep]
    unfold updateGPSFromVehicle
    split_ifs with h1 h2
    · exact h
    · exact h
    · intro _
      exact updateGPSPosition_origin_isSome' s lat lon ts h2
  | stop =>
    simp only [sStep]
    unfold stopGPSTracking
    exact h
  | clear ok =>
    simp only [sStep]
    unfold clearGPSPath
    dsimp only
    split_ifs with h1 h2 <;> intro hp
    · exact h hp
    · exact absurd rfl hp
    · exact absurd rfl hp

lemma sRun_inv (es : List SEvent) :
    ∀ s : ScriptState, (s.path ≠ [] → s.originGPS.isSome) →
      ((sRun s es).path ≠ [] → (sRun s es).originGPS.isSome) := by
  induction es with
  | nil => intro s h; exact h
  | cons e es ih =>
    intro s h
    exact ih _ (sStep_inv s e h)

/-- Counterexample to C3: in the vehicle-telemetry variant, one reachable
`startGPSTracking` step from the initial state (valid vehicle position
latitude 1, longitude 2, no browser geolocation) sets the origin while the
recorded point list is still empty, so "origin is set iff points is
non-empty" fails in a reachable session state. -/
theorem origin_invariant_cex :
    (sRun scriptInit [SEvent.start 1 2 0 false 0]).originGPS.isSome = true ∧
    (sRun scriptInit [SEvent.start 1 2 0 false 0]).path = [] ∧
    ¬((sRun scriptInit [SEvent.start 1 2 0 false 0]).originGPS.isSome ↔
        (sRun scriptInit [SEvent.start 1 2 0 false 0]).path ≠ []) := by
  have h : sRun scriptInit [SEvent.start 1 2 0 false 0] =
      startGPSTracking scriptInit 1 2 0 false 0 := rfl
  rw [h]
  unfold startGPSTracking
  norm_num [scriptInit]

/-- Claim C3 as amended: in the device-GPS variant (trj.js) every reachable
state satisfies "origin is set iff points is non-empty", and a set origin is
never modified by later fixes. In the vehicle-telemetry variant the origin
can be set with no recorded point (start sets it before any fix), but in every
reachable state a non-empty point list implies the origin is set, and a set
origin is not modified by delivered fixes or by stop for the rest of the
session. -/
theorem origin_invariant_amended :
    (∀ fixes : List GpsFix,
        ((trjRun trjInit fixes).originGPS.isSome ↔ (trjRun trjInit fixes).path ≠ [])) ∧
    (∀ (s : TrjState) (lat lon acc speedRaw : ℝ) (ts : ℤ) (o : Origin),
        s.originGPS = some o →
        (handlePosition s lat lon acc speedRaw ts).originGPS = some o) ∧
    (∀ es : List SEvent,
        ((sRun scriptInit es).path ≠ [] → (sRun scriptInit es).originGPS.isSome)) ∧
    (∀ (s : ScriptState) (lat lon : ℝ) (ts : ℤ) (o : Origin),
        s.originGPS = some o →
        (updateGPSFromVehicle s lat lon ts).originGPS = some o ∧
        (stopGPSTracking s).originGPS = some o) := by
  refine ⟨?_, handlePosition_origin_some, ?_, ?_⟩
  · intro fixes
    exact trjRun_inv fixes trjInit (by simp [trjInit])
  · intro es
    exact sRun_inv es scriptInit (by simp [scriptInit])
  · intro s lat lon ts o h
    exact ⟨updateGPSFromVehicle_origin_some s lat lon ts o h, h⟩

/-- Witness for the amended C3: the conjuncts applied at concrete inputs —
the empty trj.js run, a locked state absorbing a fix, the empty script.js run,
and a tracking state with set origin handling a vehicle fix and a stop. -/
theorem origin_invariant_amended_witness :
    ((trjRun trjInit []).originGPS.isSome ↔ (trjRun trjInit []).path ≠ []) ∧
    (handlePosition trjWitState 0 0 1 0 5).originGPS = some ⟨0, 0⟩ ∧
    ((sRun scriptInit []).path ≠ [] → (sRun scriptInit []).originGPS.isSome) ∧
    ((updateGPSFromVehicle scriptWitState 10 20 7).originGPS = some ⟨10, 20⟩ ∧
      (stopGPSTracking scriptWitState).originGPS = some ⟨10, 20⟩) :=
  ⟨origin_invariant_amended.1 [],
   origin_invariant_amended.2.1 trjWitState 0 0 1 0 5 ⟨0, 0⟩ rfl,
   origin_invariant_amended.2.2.1 [],
   origin_invariant_amended.2.2.2 scriptWitState 10 20 7 ⟨10, 20⟩ rfl⟩
